import Mathlib

/-!
Verification of `setup-models.py` (vLLM auto-configuration helper).

The script is embedded shallowly:

* JSON documents become the inductive `SetupModels.Json`; Python `dict`s
  become insertion-ordered association lists `List (String × Json)` with
  `dictGet` (key lookup, `d[k]` / `k in d`) and `dictSet` (key assignment
  `d[k] = v`: update in place, append new keys at the end — Python's
  insertion-order semantics).
* The recommendation structure parsed from the external tool's output
  becomes `Recommendations`; an absent `"models"` key is `none`, mirroring
  `recommendations.get("models", [])`.
* File-system effects are made explicit: a possibly-missing file is an
  `Option`, and a `sys.exit(1)` path (process terminates non-zero, nothing
  written) is the `none` result of the modelled function.
* `find_llmfit`'s environment (working directory contents, `shutil.which`,
  platform) becomes the explicit record `Env`.

The model covers configuration documents whose `provider`, `provider.vllm`
and `provider.vllm.models` values are JSON objects (or `models` absent).
On other shapes the Python code raises an uncaught `TypeError` before the
write — the process likewise terminates non-zero with the file unchanged,
which the model folds into the same `none` result.
-/

namespace SetupModels

/-- A JSON value.  Numbers are modelled as integers: every numeric field the
script reads or writes (`context_length`, `contextWindow`, `maxTokens`) is
integral. -/
inductive Json where
  | null : Json
  | bool (b : Bool) : Json
  | num (n : Int) : Json
  | str (s : String) : Json
  | arr (elems : List Json) : Json
  | obj (entries : List (String × Json)) : Json

/-- Python dict lookup `d[k]` (and membership `k in d`) on an
insertion-ordered association list: the first binding of `k` wins. -/
def dictGet {α : Type} : List (String × α) → String → Option α
  | [], _ => none
  | (k', v) :: rest, k => if k' = k then some v else dictGet rest k

/-- Python dict assignment `d[k] = v`: replace the value of an existing key
in place, otherwise append the new binding at the end. -/
def dictSet {α : Type} : List (String × α) → String → α → List (String × α)
  | [], k, v => [(k, v)]
  | (k', v') :: rest, k, v =>
    if k' = k then (k, v) :: rest else (k', v') :: dictSet rest k v

/-- One model descriptor from the external tool's JSON output:
`{name: string, context_length?: int, best_quant?: string}`.  An absent
optional field is `none`. -/
structure RecModel where
  name : String
  context_length : Option Int
  best_quant : Option String
  deriving DecidableEq, Repr

/-- The parsed recommendation structure.  `models = none` models a JSON
object without the top-level `"models"` key. -/
structure Recommendations where
  models : Option (List RecModel)
  deriving DecidableEq, Repr

/-- Python truthiness of the `best_model` variable (`if not best_model`):
`None` and the empty string are falsy. -/
def pyTruthy : Option String → Bool
  | none => false
  | some s => s != ""

/-- Python's model_id.split("/")[-1]: the trailing segment after the last
slash (the whole string when it contains no slash). -/
def basename (s : String) : String :=
  ⟨(s.toList.reverse.takeWhile (fun c => c != '/')).reverse⟩

/-- The display name inserted for a recommended model: the basename of the
identifier, followed by " (vLLM, ", the best_quant field or the default
"auto", and ")". -/
def entryDisplayName (m : RecModel) : String :=
  basename m.name ++ " (vLLM, " ++ m.best_quant.getD "auto" ++ ")"

/-- Python: context_window = model.get("context_length", 32768). -/
def entryContextWindow (m : RecModel) : Int :=
  m.context_length.getD 32768

/-- Python: max_tokens = min(8192, context_window // 4).  Python // is
floor division, i.e. Int.fdiv. -/
def entryMaxTokens (m : RecModel) : Int :=
  min 8192 ((m.context_length.getD 32768).fdiv 4)

/-- The entry object inserted for a recommended model that is not yet a key
of `provider.vllm.models`. -/
def mkEntry (m : RecModel) : Json :=
  .obj [("name", .str (entryDisplayName m)),
        ("contextWindow", .num (entryContextWindow m)),
        ("maxTokens", .num (entryMaxTokens m))]

/-- The `for model in recommendations.get("models", [])` loop of
`update_opencode_json`: threads the `best_model` variable (set to the
current name whenever it is still falsy) and the `models` dict (a new entry
is inserted only when the id is not already a key). -/
def mergeLoop : List RecModel → Option String → List (String × Json) →
    Option String × List (String × Json)
  | [], best_model, models => (best_model, models)
  | m :: rest, best_model, models =>
    mergeLoop rest
      (if pyTruthy best_model then best_model else some m.name)
      (if (dictGet models m.name).isSome then models
       else dictSet models m.name (mkEntry m))

/-- Creates provider.vllm.models as an empty object when the key is
absent, as the source does before the loop. -/
def ensureModels (vkvs : List (String × Json)) : List (String × Json) :=
  if (dictGet vkvs "models").isSome then vkvs
  else dictSet vkvs "models" (.obj [])

/-- The config merger update_opencode_json.  An input of `none` models a missing `opencode.json`
(`os.path.exists` fails).  The result is `none` exactly when the process
terminates non-zero before the write (`sys.exit(1)` on a missing file or
missing `provider` / `provider.vllm`, or an uncaught `TypeError` on a
non-object shape); otherwise it is `some (best_model, written_document)`
where `written_document` is what `json.dump` serialises back. -/
def update_opencode_json (recommendations : Recommendations)
    (file : Option Json) : Option (Option String × Json) :=
  match file with
  | some (Json.obj ckvs) =>
    match dictGet ckvs "provider" with
    | some (Json.obj pkvs) =>
      match dictGet pkvs "vllm" with
      | some (Json.obj vkvs) =>
        match dictGet (ensureModels vkvs) "models" with
        | some (Json.obj mkvs) =>
          let r := mergeLoop (recommendations.models.getD []) none mkvs
          some (r.1,
            Json.obj (dictSet ckvs "provider"
              (Json.obj (dictSet pkvs "vllm"
                (Json.obj (dictSet (ensureModels vkvs) "models"
                  (Json.obj r.2)))))))
        | _ => none
      | _ => none
    | _ => none
  | _ => none

/-- The environment `find_llmfit` consults: `os.path.exists` on the working
directory, `shutil.which`, and the platform test `sys.platform == "win32"`. -/
structure Env where
  cwdExists : String → Bool
  searchPath : String → Option String
  isWin32 : Bool

/-- Python: binary_name = "llmfit.exe" if sys.platform == "win32" else
"llmfit". -/
def binaryName (env : Env) : String :=
  if env.isWin32 then "llmfit.exe" else "llmfit"

/-- The locator find_llmfit: current-directory check first, then
shutil.which; the result `none` models the sys.exit(1) path. -/
def find_llmfit (env : Env) : Option String :=
  if env.cwdExists (binaryName env) then
    some (if env.isWin32 then ".\\" ++ binaryName env
          else "./" ++ binaryName env)
  else
    match env.searchPath "llmfit" with
    | some p => some p
    | none => none

/-- Prefix test on character lists: the pattern is a prefix of the text. -/
def prefixCheck : List Char → List Char → Bool
  | [], _ => true
  | _ :: _, [] => false
  | p :: ps, c :: cs => p == c && prefixCheck ps cs

/-- Python substring containment `pat in s` on character lists. -/
def substrCheck (pat : List Char) : List Char → Bool
  | [] => prefixCheck pat []
  | c :: cs => prefixCheck pat (c :: cs) || substrCheck pat cs

/-- Python membership test: the substring "--model " occurs in the line. -/
def containsModelFlag (line : String) : Bool :=
  substrCheck "--model ".toList line.toList

/-- Python str whitespace (the characters stripped by lstrip), restricted
to ASCII. -/
def pyIsSpace (c : Char) : Bool :=
  c == ' ' || c == '\t' || c == '\n' || c == '\r' || c == '\x0b' || c == '\x0c'

/-- Python: indent = line[:len(line) - len(line.lstrip())], the leading
whitespace of the line. -/
def leadingIndent (line : String) : String :=
  ⟨line.toList.takeWhile pyIsSpace⟩

/-- The replacement line written over a matched line: the original indent,
then "--model ", the identifier, a space, a backslash, and a newline. -/
def patchedLine (line best_model : String) : String :=
  leadingIndent line ++ "--model " ++ best_model ++ " \\\n"

/-- The `for i, line in enumerate(lines)` loop of `update_run_sh`: rewrite
the first line containing `"--model "` and `break`; the boolean is the
`updated` flag. -/
def patchLines (best_model : String) : List String → List String × Bool
  | [] => ([], false)
  | line :: rest =>
    if containsModelFlag line then (patchedLine line best_model :: rest, true)
    else
      let r := patchLines best_model rest
      (line :: r.1, r.2)

/-- The script patcher update_run_sh.  An input of `none` models a missing `run.sh`; the result is
the file's content afterwards (`none` = still missing).  Every path returns
(the function never terminates the process): a falsy `best_model`, a missing
file, and a no-match run all leave the file untouched. -/
def update_run_sh (best_model : Option String) (file : Option (List String)) :
    Option (List String) :=
  if pyTruthy best_model then
    match file with
    | none => none
    | some lines =>
      let r := patchLines (best_model.getD "") lines
      some (if r.2 then r.1 else lines)
  else file

/-- The `provider.vllm.models` object of a configuration document, read the
way `update_opencode_json` reads it (`[]` when any step of the path is
missing or not an object). -/
def modelsOf (j : Json) : List (String × Json) :=
  match j with
  | Json.obj ckvs =>
    match dictGet ckvs "provider" with
    | some (Json.obj pkvs) =>
      match dictGet pkvs "vllm" with
      | some (Json.obj vkvs) =>
        match dictGet vkvs "models" with
        | some (Json.obj mkvs) => mkvs
        | _ => []
      | _ => []
    | _ => []
  | _ => []

/-! ### Association-list lemmas -/

theorem dictGet_dictSet_self {α : Type} (kvs : List (String × α)) (k : String)
    (v : α) : dictGet (dictSet kvs k v) k = some v := by
  induction kvs with
  | nil => simp [dictGet, dictSet]
  | cons hd tl ih =>
    obtain ⟨k', v'⟩ := hd
    by_cases h : k' = k <;> simp [dictGet, dictSet, h, ih]

theorem dictGet_dictSet_ne {α : Type} (kvs : List (String × α)) (k k' : String)
    (v : α) (h : k' ≠ k) : dictGet (dictSet kvs k v) k' = dictGet kvs k' := by
  induction kvs with
  | nil => simp [dictGet, dictSet, Ne.symm h]
  | cons hd tl ih =>
    obtain ⟨k₀, v₀⟩ := hd
    by_cases h₀ : k₀ = k
    · subst h₀
      simp [dictGet, dictSet, Ne.symm h]
    · simp [dictGet, dictSet, h₀, ih]

theorem dictSet_eq_of_get {α : Type} (kvs : List (String × α)) (k : String)
    (v : α) (h : dictGet kvs k = some v) : dictSet kvs k v = kvs := by
  induction kvs with
  | nil => simp [dictGet] at h
  | cons hd tl ih =>
    obtain ⟨k₀, v₀⟩ := hd
    by_cases h₀ : k₀ = k
    · subst h₀
      simp [dictGet] at h
      simp [dictSet, h]
    · simp [dictGet, h₀] at h
      simp [dictSet, h₀, ih h]

/-! ### Lemmas about the merge loop -/

theorem mergeLoop_fst_indep (recs : List RecModel) (best_model : Option String)
    (models models' : List (String × Json)) :
    (mergeLoop recs best_model models).1 =
      (mergeLoop recs best_model models').1 := by
  induction recs generalizing best_model models models' with
  | nil => rfl
  | cons m rest ih => simp only [mergeLoop]; exact ih _ _ _

theorem mergeLoop_fst_truthy (recs : List RecModel) (best_model : Option String)
    (models : List (String × Json)) (h : pyTruthy best_model = true) :
    (mergeLoop recs best_model models).1 = best_model := by
  induction recs generalizing models with
  | nil => rfl
  | cons m rest ih => simp only [mergeLoop, h, if_pos]; exact ih _

theorem mergeLoop_fst_emptyStr (recs : List RecModel)
    (models : List (String × Json)) :
    (mergeLoop recs (some "") models).1 =
      (match recs.find? (fun m => m.name != "") with
       | some m => some m.name
       | none => some "") := by
  induction recs generalizing models with
  | nil => rfl
  | cons m rest ih =>
    by_cases h : m.name = ""
    · have hb : (m.name != "") = false := by simp [h]
      rw [List.find?_cons_of_neg _ (by simp [hb])]
      simp only [mergeLoop, pyTruthy, bne_self_eq_false, Bool.false_eq_true,
        if_false, h]
      exact ih _
    · have hb : (m.name != "") = true := bne_iff_ne.mpr h
      rw [List.find?_cons_of_pos (p := fun m : RecModel => m.name != "") _ hb]
      simp only [mergeLoop, pyTruthy, bne_self_eq_false, Bool.false_eq_true,
        if_false]
      exact mergeLoop_fst_truthy rest _ _ (by simp [pyTruthy, hb])

theorem mergeLoop_fst_none (recs : List RecModel)
    (models : List (String × Json)) :
    (mergeLoop recs none models).1 =
      (match recs.find? (fun m => m.name != "") with
       | some m => some m.name
       | none => if recs.isEmpty then none else some "") := by
  induction recs generalizing models with
  | nil => rfl
  | cons m rest ih =>
    by_cases h : m.name = ""
    · have hb : (m.name != "") = false := by simp [h]
      rw [List.find?_cons_of_neg _ (by simp [hb])]
      simp only [mergeLoop, pyTruthy, Bool.false_eq_true, if_false, h,
        List.isEmpty_cons]
      rw [mergeLoop_fst_emptyStr rest _]
    · have hb : (m.name != "") = true := bne_iff_ne.mpr h
      rw [List.find?_cons_of_pos (p := fun m : RecModel => m.name != "") _ hb]
      simp only [mergeLoop, pyTruthy, Bool.false_eq_true, if_false]
      exact mergeLoop_fst_truthy rest _ _ (by simp [pyTruthy, hb])

theorem mergeLoop_snd_lookup (recs : List RecModel) (best_model : Option String)
    (models : List (String × Json)) (k : String) :
    dictGet (mergeLoop recs best_model models).2 k =
      (match dictGet models k with
       | some v => some v
       | none => (recs.find? (fun m => m.name == k)).map mkEntry) := by
  induction recs generalizing best_model models with
  | nil => cases h : dictGet models k <;> simp [mergeLoop, h]
  | cons m rest ih =>
    by_cases hk : m.name = k
    · subst hk
      cases h : dictGet models m.name with
      | some v =>
        simp only [mergeLoop, h, Option.isSome_some, if_pos]
        rw [ih]
        simp [h]
      | none =>
        simp only [mergeLoop, h, Option.isSome_none, Bool.false_eq_true,
          if_false]
        rw [ih]
        simp [dictGet_dictSet_self]
    · have hne : (m.name == k) = false := by simpa using hk
      cases hins : (dictGet models m.name).isSome with
      | true =>
        simp only [mergeLoop, hins, if_pos]
        rw [ih]
        simp [List.find?_cons, hne]
      | false =>
        simp only [mergeLoop, hins, Bool.false_eq_true, if_false]
        rw [ih]
        rw [dictGet_dictSet_ne _ _ _ _ (fun h' => hk h'.symm)]
        simp [List.find?_cons, hne]

theorem mergeLoop_snd_noinsert (recs : List RecModel)
    (best_model : Option String) (models : List (String × Json))
    (h : ∀ m ∈ recs, (dictGet models m.name).isSome = true) :
    (mergeLoop recs best_model models).2 = models := by
  induction recs generalizing best_model with
  | nil => rfl
  | cons m rest ih =>
    have hm : (dictGet models m.name).isSome = true := h m (by simp)
    simp only [mergeLoop, hm, if_pos]
    exact ih _ (fun m' hm' => h m' (by simp [hm']))

/-! ### Lemmas about `ensureModels` and the shape of a successful merge -/

theorem ensureModels_lookup_self (vkvs : List (String × Json))
    (mkvs : List (String × Json))
    (h : dictGet vkvs "models" = some (Json.obj mkvs) ∨
         (dictGet vkvs "models" = none ∧ mkvs = [])) :
    dictGet (ensureModels vkvs) "models" = some (Json.obj mkvs) := by
  rcases h with h | ⟨h, rfl⟩
  · simp [ensureModels, h]
  · simp [ensureModels, h, dictGet_dictSet_self]

theorem ensureModels_lookup_ne (vkvs : List (String × Json)) (k : String)
    (h : k ≠ "models") :
    dictGet (ensureModels vkvs) k = dictGet vkvs k := by
  unfold ensureModels
  by_cases h' : (dictGet vkvs "models").isSome <;>
    simp [h', dictGet_dictSet_ne _ _ _ _ h]

/-- A successful run of `update_opencode_json` forces the object shape of the
input document and determines the returned best model and the written-back
document. -/
theorem update_shape (recs : Recommendations) (cfg : Json)
    (best : Option String) (out : Json)
    (h : update_opencode_json recs (some cfg) = some (best, out)) :
    ∃ ckvs pkvs vkvs mkvs,
      cfg = Json.obj ckvs ∧
      dictGet ckvs "provider" = some (Json.obj pkvs) ∧
      dictGet pkvs "vllm" = some (Json.obj vkvs) ∧
      dictGet (ensureModels vkvs) "models" = some (Json.obj mkvs) ∧
      best = (mergeLoop (recs.models.getD []) none mkvs).1 ∧
      out = Json.obj (dictSet ckvs "provider"
        (Json.obj (dictSet pkvs "vllm"
          (Json.obj (dictSet (ensureModels vkvs) "models"
            (Json.obj (mergeLoop (recs.models.getD []) none mkvs).2)))))) := by
  unfold update_opencode_json at h
  split at h
  case h_2 => exact absurd h (by simp)
  case h_1 _ ckvs heq =>
  cases heq
  refine ⟨ckvs, ?_⟩
  split at h
  case h_2 => exact absurd h (by simp)
  case h_1 pkvs hP =>
  refine ⟨pkvs, ?_⟩
  split at h
  case h_2 => exact absurd h (by simp)
  case h_1 vkvs hV =>
  refine ⟨vkvs, ?_⟩
  split at h
  case h_2 => exact absurd h (by simp)
  case h_1 mkvs hM =>
  refine ⟨mkvs, rfl, hP, hV, hM, ?_⟩
  simp only [Option.some.injEq, Prod.mk.injEq] at h
  exact ⟨h.1.symm, h.2.symm⟩

theorem update_of_shape (recs : Recommendations)
    (ckvs pkvs vkvs mkvs : List (String × Json))
    (hP : dictGet ckvs "provider" = some (Json.obj pkvs))
    (hV : dictGet pkvs "vllm" = some (Json.obj vkvs))
    (hM : dictGet (ensureModels vkvs) "models" = some (Json.obj mkvs)) :
    update_opencode_json recs (some (Json.obj ckvs)) =
      some ((mergeLoop (recs.models.getD []) none mkvs).1,
        Json.obj (dictSet ckvs "provider"
          (Json.obj (dictSet pkvs "vllm"
            (Json.obj (dictSet (ensureModels vkvs) "models"
              (Json.obj (mergeLoop (recs.models.getD []) none mkvs).2))))))) := by
  simp [update_opencode_json, hP, hV, hM]

theorem modelsOf_rebuild (ckvs pkvs vkvs r : List (String × Json)) :
    modelsOf (Json.obj (dictSet ckvs "provider"
      (Json.obj (dictSet pkvs "vllm"
        (Json.obj (dictSet vkvs "models" (Json.obj r))))))) = r := by
  simp [modelsOf, dictGet_dictSet_self]

theorem modelsOf_cfg (ckvs pkvs vkvs mkvs : List (String × Json))
    (hP : dictGet ckvs "provider" = some (Json.obj pkvs))
    (hV : dictGet pkvs "vllm" = some (Json.obj vkvs))
    (hM : dictGet (ensureModels vkvs) "models" = some (Json.obj mkvs)) :
    modelsOf (Json.obj ckvs) = mkvs := by
  unfold ensureModels at hM
  cases h : dictGet vkvs "models" with
  | none =>
    simp only [h, Option.isSome_none, Bool.false_eq_true, if_false,
      dictGet_dictSet_self, Option.some.injEq, Json.obj.injEq] at hM
    simp [modelsOf, hP, hV, h, ← hM]
  | some v =>
    simp only [h, Option.isSome_some, if_pos, Option.some.injEq] at hM
    subst hM
    simp [modelsOf, hP, hV, h]

theorem find?_isSome_of_mem {α : Type} (p : α → Bool) (l : List α) (a : α)
    (ha : a ∈ l) (hp : p a = true) : (l.find? p).isSome = true := by
  induction l with
  | nil => cases ha
  | cons x xs ih =>
    by_cases hx : p x = true
    · simp [List.find?_cons_of_pos _ hx]
    · rcases List.mem_cons.mp ha with rfl | ha'
      · exact absurd hp hx
      · rw [List.find?_cons_of_neg _ (by simpa using hx)]
        exact ih ha'

/-- Running the merge on a document whose `provider.vllm.models` object
already contains every recommended identifier inserts nothing and writes the
same document back. -/
theorem update_on_rebuilt (recs : Recommendations)
    (ckvs pkvs vkvs M : List (String × Json))
    (hAll : ∀ m ∈ recs.models.getD [], (dictGet M m.name).isSome = true) :
    update_opencode_json recs (some (Json.obj (dictSet ckvs "provider"
      (Json.obj (dictSet pkvs "vllm"
        (Json.obj (dictSet vkvs "models" (Json.obj M)))))))) =
    some ((mergeLoop (recs.models.getD []) none M).1,
      Json.obj (dictSet ckvs "provider"
        (Json.obj (dictSet pkvs "vllm"
          (Json.obj (dictSet vkvs "models" (Json.obj M))))))) := by
  have hm2 : dictGet (dictSet vkvs "models" (Json.obj M)) "models" =
      some (Json.obj M) := dictGet_dictSet_self vkvs "models" (Json.obj M)
  have hE2 : ensureModels (dictSet vkvs "models" (Json.obj M)) =
      dictSet vkvs "models" (Json.obj M) := by simp [ensureModels, hm2]
  rw [update_of_shape recs _ _ _ M
    (dictGet_dictSet_self ckvs "provider" _)
    (dictGet_dictSet_self pkvs "vllm" _)
    (by rw [hE2]; exact hm2)]
  rw [hE2, mergeLoop_snd_noinsert _ _ _ hAll, dictSet_eq_of_get _ _ _ hm2,
    dictSet_eq_of_get _ _ _ (dictGet_dictSet_self pkvs "vllm" _),
    dictSet_eq_of_get _ _ _ (dictGet_dictSet_self ckvs "provider" _)]

/-! ### Lemmas about the script patcher -/

theorem patchLines_of_no_match (b : String) (lines : List String)
    (h : ∀ l ∈ lines, containsModelFlag l = false) :
    patchLines b lines = (lines, false) := by
  induction lines with
  | nil => rfl
  | cons l rest ih =>
    have hl : containsModelFlag l = false := h l (by simp)
    simp only [patchLines, hl, Bool.false_eq_true, if_false]
    rw [ih (fun l' hl' => h l' (by simp [hl']))]

theorem patchLines_first_match (b : String) (lines : List String) (i : Nat)
    (li : String) (h1 : lines[i]? = some li)
    (h2 : containsModelFlag li = true)
    (h3 : ∀ j lj, j < i → lines[j]? = some lj → containsModelFlag lj = false) :
    (patchLines b lines).2 = true ∧
    (patchLines b lines).1[i]? = some (patchedLine li b) ∧
    ∀ j, j ≠ i → (patchLines b lines).1[j]? = lines[j]? := by
  induction lines generalizing i with
  | nil => simp at h1
  | cons l rest ih =>
    by_cases hl : containsModelFlag l = true
    · have hi0 : i = 0 := by
        by_contra hne
        have hz := h3 0 l (Nat.pos_of_ne_zero hne) (by simp)
        rw [hz] at hl
        cases hl
      subst hi0
      have hli : li = l := by simpa using h1.symm
      subst hli
      refine ⟨by simp [patchLines, hl], by simp [patchLines, hl], ?_⟩
      intro j hj
      obtain ⟨j', rfl⟩ := Nat.exists_eq_succ_of_ne_zero hj
      simp [patchLines, hl]
    · have hi : ∃ i', i = i' + 1 := by
        cases i with
        | zero =>
          have hli : li = l := by simpa using h1.symm
          rw [hli] at h2
          exact absurd h2 hl
        | succ i' => exact ⟨i', rfl⟩
      obtain ⟨i', rfl⟩ := hi
      have h1' : rest[i']? = some li := by simpa using h1
      have h3' : ∀ j lj, j < i' → rest[j]? = some lj →
          containsModelFlag lj = false := fun j lj hj hlj =>
        h3 (j + 1) lj (by omega) (by simpa using hlj)
      obtain ⟨hupd, hat, hoth⟩ := ih i' h1' h3'
      refine ⟨by simp [patchLines, hl, hupd], by simp [patchLines, hl, hat], ?_⟩
      intro j hj
      cases j with
      | zero => simp [patchLines, hl]
      | succ j' =>
        have ho := hoth j' (by omega)
        simp [patchLines, hl, ho]

/-! ### The claims -/

/-- C5: when the key `provider` is absent, or `provider.vllm` is absent, or
the config file itself is missing, `update_opencode_json` terminates the
process with a non-zero status (result `none`) and performs no write: the
on-disk document is untouched on this error path. -/
theorem claim_c5_missing_keys_fatal (recs : Recommendations)
    (ckvs : List (String × Json)) :
    update_opencode_json recs none = none ∧
    (dictGet ckvs "provider" = none →
      update_opencode_json recs (some (Json.obj ckvs)) = none) ∧
    (∀ pkvs, dictGet ckvs "provider" = some (Json.obj pkvs) →
      dictGet pkvs "vllm" = none →
      update_opencode_json recs (some (Json.obj ckvs)) = none) := by
  refine ⟨rfl, fun h => ?_, fun pkvs hP hV => ?_⟩
  · simp [update_opencode_json, h]
  · simp [update_opencode_json, hP, hV]

theorem claim_c5_missing_keys_fatal_witness :
    update_opencode_json ⟨none⟩
      (some (Json.obj [("provider", Json.obj [])])) = none ∧
    update_opencode_json ⟨none⟩ (some (Json.obj [])) = none ∧
    update_opencode_json ⟨none⟩ none = none :=
  ⟨(claim_c5_missing_keys_fatal ⟨none⟩ [("provider", Json.obj [])]).2.2 [] rfl
      rfl,
   (claim_c5_missing_keys_fatal ⟨none⟩ []).2.1 rfl,
   (claim_c5_missing_keys_fatal ⟨none⟩ []).1⟩

/-- C6: the locator gives the current working directory priority over the
search path: when the platform-dependent binary name exists in the current
directory it returns the relative invocation path regardless of what the
search path would resolve; only when the current-directory check fails does
it consult the search path, and when both fail it terminates with a non-zero
status (result `none`). -/
theorem claim_c6_locator_priority (env : Env) :
    (env.cwdExists (binaryName env) = true →
      find_llmfit env = some (if env.isWin32 then ".\\" ++ binaryName env
        else "./" ++ binaryName env)) ∧
    (env.cwdExists (binaryName env) = false →
      find_llmfit env = env.searchPath "llmfit") ∧
    (env.cwdExists (binaryName env) = false → env.searchPath "llmfit" = none →
      find_llmfit env = none) := by
  refine ⟨fun h => ?_, fun h => ?_, fun h h' => ?_⟩
  · simp [find_llmfit, h]
  · cases hs : env.searchPath "llmfit" <;> simp [find_llmfit, h, hs]
  · simp [find_llmfit, h, h']

theorem claim_c6_locator_priority_witness :
    find_llmfit ⟨fun _ => true, fun _ => some "/usr/bin/llmfit", false⟩ =
      some "./llmfit" :=
  (claim_c6_locator_priority
    ⟨fun _ => true, fun _ => some "/usr/bin/llmfit", false⟩).1 rfl

/-- C9: a parsed recommendation structure without the top-level `"models"`
key behaves exactly like an empty recommendation list: the merge inserts no
entries, returns no best model, still writes the config document back
(result `some`), and does not terminate with an error. -/
theorem claim_c9_missing_models_key :
    (∀ f : Option Json,
      update_opencode_json ⟨none⟩ f = update_opencode_json ⟨some []⟩ f) ∧
    (∀ ckvs pkvs vkvs : List (String × Json),
      dictGet ckvs "provider" = some (Json.obj pkvs) →
      dictGet pkvs "vllm" = some (Json.obj vkvs) →
      (dictGet vkvs "models" = none ∨
        ∃ mk, dictGet vkvs "models" = some (Json.obj mk)) →
      ∃ out, update_opencode_json ⟨none⟩ (some (Json.obj ckvs)) =
          some (none, out) ∧
        modelsOf out = modelsOf (Json.obj ckvs)) := by
  constructor
  · intro f
    rfl
  · intro ckvs pkvs vkvs hP hV hm
    have hM : ∃ mkvs, dictGet (ensureModels vkvs) "models" =
        some (Json.obj mkvs) := by
      rcases hm with h | ⟨mk, h⟩
      · exact ⟨[], ensureModels_lookup_self vkvs [] (Or.inr ⟨h, rfl⟩)⟩
      · exact ⟨mk, ensureModels_lookup_self vkvs mk (Or.inl h)⟩
    obtain ⟨mkvs, hM⟩ := hM
    refine ⟨Json.obj (dictSet ckvs "provider"
      (Json.obj (dictSet pkvs "vllm"
        (Json.obj (dictSet (ensureModels vkvs) "models" (Json.obj mkvs)))))),
      ?_, ?_⟩
    · exact update_of_shape ⟨none⟩ ckvs pkvs vkvs mkvs hP hV hM
    · rw [modelsOf_rebuild, modelsOf_cfg ckvs pkvs vkvs mkvs hP hV hM]

theorem claim_c9_missing_models_key_witness :
    ∃ out, update_opencode_json ⟨none⟩
        (some (Json.obj [("provider", Json.obj [("vllm", Json.obj [])])])) =
        some (none, out) ∧
      modelsOf out =
        modelsOf (Json.obj [("provider", Json.obj [("vllm", Json.obj [])])]) :=
  claim_c9_missing_models_key.2 [("provider", Json.obj [("vllm", Json.obj [])])]
    [("vllm", Json.obj [])] [] rfl rfl (Or.inl rfl)

/-- C4 (counterexample): the merge does *not* always return the name of the
first recommendation.  With the list `[{name: ""}, {name: "x"}]` the first
entry's name is `""`, yet the returned best model is `"x"`: the code's
`if not best_model` test treats the assigned empty string as still unset. -/
theorem claim_c4_best_model_counterexample :
    (update_opencode_json ⟨some [⟨"", none, none⟩, ⟨"x", none, none⟩]⟩
      (some (Json.obj [("provider", Json.obj [("vllm", Json.obj [])])]))).map
      (fun r => r.1) = some (some "x") ∧
    (⟨"", none, none⟩ : RecModel).name = "" ∧
    some "x" ≠ some ("" : String) :=
  ⟨rfl, rfl, by decide⟩

/-- C4 (amended): the merge returns the name of the first recommendation
whose name is non-empty (Python truthiness skips entries named `""`); it
returns nothing when the recommendation list is empty, and the empty string
when the list is non-empty but every name is empty.  The returned value is
determined by the recommendation list alone, independently of whether any
entry was inserted into the config. -/
theorem claim_c4_best_model (recs : Recommendations) (cfg : Json)
    (best : Option String) (out : Json)
    (h : update_opencode_json recs (some cfg) = some (best, out)) :
    best = (match (recs.models.getD []).find? (fun m => m.name != "") with
            | some m => some m.name
            | none => if (recs.models.getD []).isEmpty then none
                      else some "") := by
  obtain ⟨ckvs, pkvs, vkvs, mkvs, rfl, hP, hV, hM, hbest, hout⟩ :=
    update_shape recs cfg best out h
  rw [hbest, mergeLoop_fst_none]

theorem claim_c4_best_model_witness :
    (some "x" : Option String) =
      (match ([⟨"", none, none⟩, ⟨"x", none, none⟩] :
          List RecModel).find? (fun m => m.name != "") with
       | some m => some m.name
       | none => if ([⟨"", none, none⟩, ⟨"x", none, none⟩] :
            List RecModel).isEmpty then none else some "") :=
  claim_c4_best_model ⟨some [⟨"", none, none⟩, ⟨"x", none, none⟩]⟩
    (Json.obj [("provider", Json.obj [("vllm", Json.obj [])])])
    (some "x")
    (Json.obj [("provider", Json.obj [("vllm", Json.obj [("models", Json.obj
      [("", Json.obj [("name", Json.str " (vLLM, auto)"),
         ("contextWindow", Json.num 32768), ("maxTokens", Json.num 8192)]),
       ("x", Json.obj [("name", Json.str "x (vLLM, auto)"),
         ("contextWindow", Json.num 32768),
         ("maxTokens", Json.num 8192)])])])])])
    rfl

/-- C1: the merge only adds entries under `provider.vllm.models`: every
model entry already present keeps exactly its prior value, no entry is
removed (new keys come only from the recommendation list), and every key of
the document outside `provider.vllm.models` — at the top level, inside
`provider`, and inside `provider.vllm` — is unchanged in the written-back
document. -/
theorem claim_c1_merge_frame (recs : Recommendations)
    (ckvs pkvs vkvs mkvs0 : List (String × Json)) (best : Option String)
    (out : Json)
    (hP : dictGet ckvs "provider" = some (Json.obj pkvs))
    (hV : dictGet pkvs "vllm" = some (Json.obj vkvs))
    (hM0 : dictGet vkvs "models" = some (Json.obj mkvs0) ∨
           (dictGet vkvs "models" = none ∧ mkvs0 = []))
    (h : update_opencode_json recs (some (Json.obj ckvs)) = some (best, out)) :
    ∃ ckvs1 pkvs1 vkvs1 mkvs1,
      out = Json.obj ckvs1 ∧
      (∀ k, k ≠ "provider" → dictGet ckvs1 k = dictGet ckvs k) ∧
      dictGet ckvs1 "provider" = some (Json.obj pkvs1) ∧
      (∀ k, k ≠ "vllm" → dictGet pkvs1 k = dictGet pkvs k) ∧
      dictGet pkvs1 "vllm" = some (Json.obj vkvs1) ∧
      (∀ k, k ≠ "models" → dictGet vkvs1 k = dictGet vkvs k) ∧
      dictGet vkvs1 "models" = some (Json.obj mkvs1) ∧
      (∀ k v, dictGet mkvs0 k = some v → dictGet mkvs1 k = some v) ∧
      (∀ k, dictGet mkvs0 k = none →
        dictGet mkvs1 k =
          ((recs.models.getD []).find? (fun m => m.name == k)).map mkEntry) := by
  have hM : dictGet (ensureModels vkvs) "models" = some (Json.obj mkvs0) :=
    ensureModels_lookup_self vkvs mkvs0 hM0
  have hu := update_of_shape recs ckvs pkvs vkvs mkvs0 hP hV hM
  rw [h] at hu
  obtain ⟨hbest, hout⟩ := Prod.mk.injEq .. ▸ Option.some_injective _ hu
  refine ⟨_, _, _, (mergeLoop (recs.models.getD []) none mkvs0).2, hout, ?_,
    dictGet_dictSet_self ckvs "provider" _, ?_,
    dictGet_dictSet_self pkvs "vllm" _, ?_,
    dictGet_dictSet_self (ensureModels vkvs) "models" _, ?_, ?_⟩
  · intro k hk
    exact dictGet_dictSet_ne ckvs "provider" k _ hk
  · intro k hk
    exact dictGet_dictSet_ne pkvs "vllm" k _ hk
  · intro k hk
    rw [dictGet_dictSet_ne (ensureModels vkvs) "models" k _ hk]
    exact ensureModels_lookup_ne vkvs k hk
  · intro k v hkv
    rw [mergeLoop_snd_lookup, hkv]
  · intro k hk
    rw [mergeLoop_snd_lookup, hk]

theorem claim_c1_merge_frame_witness :
    ∃ ckvs1 pkvs1 vkvs1 mkvs1,
      (Json.obj [("other", Json.str "keep"),
        ("provider", Json.obj [("x", Json.null),
          ("vllm", Json.obj [("models", Json.obj
            [("m1", Json.str "old"),
             ("org/m2", Json.obj [("name", Json.str "m2 (vLLM, awq)"),
               ("contextWindow", Json.num 16000),
               ("maxTokens", Json.num 4000)])])])])]) = Json.obj ckvs1 ∧
      (∀ k, k ≠ "provider" → dictGet ckvs1 k =
        dictGet [("other", Json.str "keep"),
          ("provider", Json.obj [("x", Json.null),
            ("vllm", Json.obj [("models", Json.obj
              [("m1", Json.str "old")])])])] k) ∧
      dictGet ckvs1 "provider" = some (Json.obj pkvs1) ∧
      (∀ k, k ≠ "vllm" → dictGet pkvs1 k =
        dictGet [("x", Json.null),
          ("vllm", Json.obj [("models", Json.obj
            [("m1", Json.str "old")])])] k) ∧
      dictGet pkvs1 "vllm" = some (Json.obj vkvs1) ∧
      (∀ k, k ≠ "models" → dictGet vkvs1 k =
        dictGet [("models", Json.obj [("m1", Json.str "old")])] k) ∧
      dictGet vkvs1 "models" = some (Json.obj mkvs1) ∧
      (∀ k v, dictGet [("m1", Json.str "old")] k = some v →
        dictGet mkvs1 k = some v) ∧
      (∀ k, dictGet [("m1", Json.str "old")] k = none →
        dictGet mkvs1 k =
          (((⟨some [⟨"m1", none, none⟩, ⟨"org/m2", some 16000, some "awq"⟩]⟩ :
            Recommendations).models.getD []).find?
              (fun m => m.name == k)).map mkEntry) := by
  have hmain := claim_c1_merge_frame
    ⟨some [⟨"m1", none, none⟩, ⟨"org/m2", some 16000, some "awq"⟩]⟩
    [("other", Json.str "keep"),
     ("provider", Json.obj [("x", Json.null),
       ("vllm", Json.obj [("models", Json.obj [("m1", Json.str "old")])])])]
    [("x", Json.null),
     ("vllm", Json.obj [("models", Json.obj [("m1", Json.str "old")])])]
    [("models", Json.obj [("m1", Json.str "old")])]
    [("m1", Json.str "old")]
    (some "m1")
    (Json.obj [("other", Json.str "keep"),
      ("provider", Json.obj [("x", Json.null),
        ("vllm", Json.obj [("models", Json.obj
          [("m1", Json.str "old"),
           ("org/m2", Json.obj [("name", Json.str "m2 (vLLM, awq)"),
             ("contextWindow", Json.num 16000),
             ("maxTokens", Json.num 4000)])])])])])
    rfl rfl (Or.inl rfl) rfl
  exact hmain

/-- C2: every entry the merge inserts stores
`maxTokens = min(8192, contextWindow // 4)` with integer division, where
`contextWindow` is the recommendation's `context_length` or the default
32768 when absent; concretely `context_length = 32768` gives 8192,
`context_length = 16000` gives 4000, and an absent `context_length` gives
`contextWindow = 32768` and `maxTokens = 8192`. -/
theorem claim_c2_maxTokens (recs : Recommendations) (cfg : Json)
    (best : Option String) (out : Json) (k : String) (m : RecModel)
    (h : update_opencode_json recs (some cfg) = some (best, out))
    (hnew : dictGet (modelsOf cfg) k = none)
    (hfind : (recs.models.getD []).find? (fun m' => m'.name == k) = some m) :
    dictGet (modelsOf out) k = some (Json.obj
      [("name", Json.str (entryDisplayName m)),
       ("contextWindow", Json.num (m.context_length.getD 32768)),
       ("maxTokens",
        Json.num (min 8192 ((m.context_length.getD 32768).fdiv 4)))]) ∧
    entryMaxTokens ⟨"n", some 32768, none⟩ = 8192 ∧
    entryMaxTokens ⟨"n", some 16000, none⟩ = 4000 ∧
    entryContextWindow ⟨"n", none, none⟩ = 32768 ∧
    entryMaxTokens ⟨"n", none, none⟩ = 8192 := by
  refine ⟨?_, by decide, by decide, by decide, by decide⟩
  obtain ⟨ckvs, pkvs, vkvs, mkvs, rfl, hP, hV, hM, hbest, hout⟩ :=
    update_shape recs cfg best out h
  rw [modelsOf_cfg ckvs pkvs vkvs mkvs hP hV hM] at hnew
  rw [hout, modelsOf_rebuild, mergeLoop_snd_lookup, hnew, hfind]
  rfl

theorem claim_c2_maxTokens_witness :
    dictGet (modelsOf (Json.obj [("provider", Json.obj [("vllm", Json.obj
      [("models", Json.obj [("m", Json.obj
        [("name", Json.str "m (vLLM, auto)"),
         ("contextWindow", Json.num 16000),
         ("maxTokens", Json.num 4000)])])])])])) "m" = some (Json.obj
      [("name", Json.str (entryDisplayName ⟨"m", some 16000, none⟩)),
       ("contextWindow",
        Json.num ((some (16000 : Int)).getD 32768)),
       ("maxTokens",
        Json.num (min 8192 (((some (16000 : Int)).getD 32768).fdiv 4)))]) ∧
    entryMaxTokens ⟨"n", some 32768, none⟩ = 8192 ∧
    entryMaxTokens ⟨"n", some 16000, none⟩ = 4000 ∧
    entryContextWindow ⟨"n", none, none⟩ = 32768 ∧
    entryMaxTokens ⟨"n", none, none⟩ = 8192 :=
  claim_c2_maxTokens ⟨some [⟨"m", some 16000, none⟩]⟩
    (Json.obj [("provider", Json.obj [("vllm", Json.obj [])])])
    (some "m")
    (Json.obj [("provider", Json.obj [("vllm", Json.obj
      [("models", Json.obj [("m", Json.obj
        [("name", Json.str "m (vLLM, auto)"),
         ("contextWindow", Json.num 16000),
         ("maxTokens", Json.num 4000)])])])])])
    "m" ⟨"m", some 16000, none⟩ rfl rfl rfl

/-- C7: every entry the merge inserts stores the display name
`"<basename> (vLLM, <quant>)"`, where `basename` is the identifier's
trailing path segment after the last `/` (the whole identifier when it has
no `/`) and `quant` is the recommendation's `best_quant` or the literal
`"auto"` when absent; concretely `"org/model-7b"` with no quant yields
`"model-7b (vLLM, auto)"`. -/
theorem claim_c7_displayName (recs : Recommendations) (cfg : Json)
    (best : Option String) (out : Json) (k : String) (m : RecModel)
    (h : update_opencode_json recs (some cfg) = some (best, out))
    (hnew : dictGet (modelsOf cfg) k = none)
    (hfind : (recs.models.getD []).find? (fun m' => m'.name == k) = some m) :
    dictGet (modelsOf out) k = some (Json.obj
      [("name", Json.str (basename m.name ++ " (vLLM, " ++
          m.best_quant.getD "auto" ++ ")")),
       ("contextWindow", Json.num (entryContextWindow m)),
       ("maxTokens", Json.num (entryMaxTokens m))]) ∧
    basename "org/model-7b" = "model-7b" ∧
    entryDisplayName ⟨"org/model-7b", none, none⟩ =
      "model-7b (vLLM, auto)" := by
  refine ⟨?_, by decide, by decide⟩
  obtain ⟨ckvs, pkvs, vkvs, mkvs, rfl, hP, hV, hM, hbest, hout⟩ :=
    update_shape recs cfg best out h
  rw [modelsOf_cfg ckvs pkvs vkvs mkvs hP hV hM] at hnew
  rw [hout, modelsOf_rebuild, mergeLoop_snd_lookup, hnew, hfind]
  rfl

theorem claim_c7_displayName_witness :
    dictGet (modelsOf (Json.obj [("provider", Json.obj [("vllm", Json.obj
      [("models", Json.obj [("org/model-7b", Json.obj
        [("name", Json.str "model-7b (vLLM, auto)"),
         ("contextWindow", Json.num 32768),
         ("maxTokens", Json.num 8192)])])])])])) "org/model-7b" =
      some (Json.obj
        [("name", Json.str (basename "org/model-7b" ++ " (vLLM, " ++
            ((none : Option String)).getD "auto" ++ ")")),
         ("contextWindow",
          Json.num (entryContextWindow ⟨"org/model-7b", none, none⟩)),
         ("maxTokens",
          Json.num (entryMaxTokens ⟨"org/model-7b", none, none⟩))]) ∧
    basename "org/model-7b" = "model-7b" ∧
    entryDisplayName ⟨"org/model-7b", none, none⟩ =
      "model-7b (vLLM, auto)" :=
  claim_c7_displayName ⟨some [⟨"org/model-7b", none, none⟩]⟩
    (Json.obj [("provider", Json.obj [("vllm", Json.obj [])])])
    (some "org/model-7b")
    (Json.obj [("provider", Json.obj [("vllm", Json.obj
      [("models", Json.obj [("org/model-7b", Json.obj
        [("name", Json.str "model-7b (vLLM, auto)"),
         ("contextWindow", Json.num 32768),
         ("maxTokens", Json.num 8192)])])])])])
    "org/model-7b" ⟨"org/model-7b", none, none⟩ rfl rfl rfl

/-- C3: the merge is idempotent: rerunning it with the same recommendation
input on the document written by a successful first run returns the same
best model and writes back exactly the same document — no duplicate or
modified entries on the second pass. -/
theorem claim_c3_idempotent (recs : Recommendations) (cfg : Json)
    (best : Option String) (out : Json)
    (h : update_opencode_json recs (some cfg) = some (best, out)) :
    update_opencode_json recs (some out) = some (best, out) := by
  obtain ⟨ckvs, pkvs, vkvs, mkvs, rfl, hP, hV, hM, hbest, hout⟩ :=
    update_shape recs cfg best out h
  have hAll : ∀ m ∈ recs.models.getD [],
      (dictGet (mergeLoop (recs.models.getD []) none mkvs).2 m.name).isSome =
        true := by
    intro m hm
    rw [mergeLoop_snd_lookup]
    cases hg : dictGet mkvs m.name with
    | some v => simp [hg]
    | none =>
      simp only [hg]
      cases hf : List.find? (fun m' => m'.name == m.name)
          (recs.models.getD []) with
      | none =>
        have hs := find?_isSome_of_mem (fun m' => m'.name == m.name) _ m hm
          (by simp)
        rw [hf] at hs
        cases hs
      | some x => simp [hf]
  rw [hout, hbest,
    update_on_rebuilt recs ckvs pkvs (ensureModels vkvs) _ hAll,
    mergeLoop_fst_indep (recs.models.getD []) none
      (mergeLoop (recs.models.getD []) none mkvs).2 mkvs]

theorem claim_c3_idempotent_witness :
    update_opencode_json ⟨some [⟨"a/b", none, none⟩]⟩
      (some (Json.obj [("provider", Json.obj [("vllm", Json.obj
        [("models", Json.obj [("a/b", Json.obj
          [("name", Json.str "b (vLLM, auto)"),
           ("contextWindow", Json.num 32768),
           ("maxTokens", Json.num 8192)])])])])])) =
      some (some "a/b",
        Json.obj [("provider", Json.obj [("vllm", Json.obj
          [("models", Json.obj [("a/b", Json.obj
            [("name", Json.str "b (vLLM, auto)"),
             ("contextWindow", Json.num 32768),
             ("maxTokens", Json.num 8192)])])])])]) :=
  claim_c3_idempotent ⟨some [⟨"a/b", none, none⟩]⟩
    (Json.obj [("provider", Json.obj [("vllm", Json.obj [])])])
    (some "a/b")
    (Json.obj [("provider", Json.obj [("vllm", Json.obj
      [("models", Json.obj [("a/b", Json.obj
        [("name", Json.str "b (vLLM, auto)"),
         ("contextWindow", Json.num 32768),
         ("maxTokens", Json.num 8192)])])])])])
    rfl

/-- C8: for every script file and non-empty model identifier, the patcher
rewrites only the first line containing `"--model "` to the replacement
`patchedLine` (indent preserved, trailing continuation marker appended) and
leaves every other line untouched; when no line matches, or the script file
does not exist, the file is byte-for-byte unchanged and the function simply
returns (no process termination on this path). -/
theorem claim_c8_patch_first_match (b : String) (lines : List String)
    (hb : b ≠ "") :
    update_run_sh (some b) none = none ∧
    ((∀ l ∈ lines, containsModelFlag l = false) →
      update_run_sh (some b) (some lines) = some lines) ∧
    (∀ (i : Nat) (li : String), lines[i]? = some li →
      containsModelFlag li = true →
      (∀ (j : Nat) (lj : String), j < i → lines[j]? = some lj →
        containsModelFlag lj = false) →
      ∃ out, update_run_sh (some b) (some lines) = some out ∧
        out[i]? = some (patchedLine li b) ∧
        ∀ j : Nat, j ≠ i → out[j]? = lines[j]?) := by
  have hpt : pyTruthy (some b) = true := by
    simp [pyTruthy, bne_iff_ne, hb]
  refine ⟨by simp [update_run_sh, hpt], fun h => ?_, fun i li h1 h2 h3 => ?_⟩
  · simp [update_run_sh, hpt, patchLines_of_no_match b lines h]
  · obtain ⟨hupd, hat, hoth⟩ := patchLines_first_match b lines i li h1 h2 h3
    exact ⟨(patchLines b lines).1, by simp [update_run_sh, hpt, hupd],
      hat, hoth⟩

theorem claim_c8_patch_first_match_witness :
    ∃ out, update_run_sh (some "new")
        (some ["#!/bin/sh\n", "  --model old \\\n", "end\n"]) = some out ∧
      out[1]? = some (patchedLine "  --model old \\\n" "new") ∧
      ∀ j : Nat, j ≠ 1 →
        out[j]? = ["#!/bin/sh\n", "  --model old \\\n", "end\n"][j]? := by
  refine (claim_c8_patch_first_match "new"
    ["#!/bin/sh\n", "  --model old \\\n", "end\n"] (by decide)).2.2
    1 "  --model old \\\n" rfl (by decide) ?_
  intro j lj hj hlj
  have hj0 : j = 0 := by omega
  subst hj0
  simp only [List.getElem?_cons_zero, Option.some.injEq] at hlj
  subst hlj
  decide

/-- C10: the script patcher unconditionally ends the rewritten line with a
line-continuation marker: for any matched first line — including one with no
trailing backslash — the replacement is exactly
`<original-indent>--model <identifier> \\` plus a newline, and everything
on the matched line after the indentation is discarded. -/
theorem claim_c10_unconditional_marker (b line : String)
    (tail : List String) (hb : b ≠ "")
    (h : containsModelFlag line = true) :
    update_run_sh (some b) (some (line :: tail)) =
      some ((leadingIndent line ++ "--model " ++ b ++ " \\\n") :: tail) := by
  have hpt : pyTruthy (some b) = true := by
    simp [pyTruthy, bne_iff_ne, hb]
  simp [update_run_sh, hpt, patchLines, h, patchedLine]

theorem claim_c10_unconditional_marker_witness :
    update_run_sh (some "new-model")
      (some ["  --model old-name --flag x", "tail\n"]) =
      some ["  --model new-model \\\n", "tail\n"] :=
  claim_c10_unconditional_marker "new-model" "  --model old-name --flag x"
    ["tail\n"] (by decide) (by decide)

end SetupModels
